import Mathlib

/-!
Shallow embedding of `switch_model/policies/rps_simple.py`, the simple
Renewable Portfolio Standard (RPS) policy module of the Switch model.

The module attaches a per-fuel eligibility flag, a derived set of
RPS-eligible energy sources, a subset of periods carrying RPS targets,
per-period eligible-energy expressions, and one enforcement constraint to
a host optimization model.  Here the host model is embedded as an explicit
record of its sets, parameters and (post-solve numeric) variable values;
fuels, energy sources, generators, periods, timepoints and load zones are
all indexed by natural numbers, and all quantities are rationals.
-/

namespace RpsSimple

/-- State of the host model as seen by the `rps_simple` module: the global
sets, parameters and decision-variable values the module reads, plus the
components the module itself declares (`f_rps_eligible`, `RPS_PERIODS`,
`rps_target`).  Variable-valued fields (`DispatchGen`, `GenFuelUseRate`)
hold the numeric values of a candidate (or solved) solution. -/
structure Model where
  FUELS : List Nat
  NON_FUEL_ENERGY_SOURCES : List Nat
  f_rps_eligible : Nat → Bool
  PERIODS : List Nat
  RPS_PERIODS : List Nat
  rps_target : Nat → ℚ
  FUEL_BASED_GENS : List Nat
  NON_FUEL_BASED_GENS : List Nat
  GENERATION_PROJECTS : List Nat
  FUELS_FOR_GEN : Nat → List Nat
  TPS_FOR_GEN_IN_PERIOD : Nat → Nat → List Nat
  tp_weight : Nat → ℚ
  GenFuelUseRate : Nat → Nat → Nat → ℚ
  gen_full_load_heat_rate : Nat → ℚ
  DispatchGen : Nat → Nat → ℚ
  LOAD_ZONES : List Nat
  zone_total_demand_in_period_mwh : Nat → Nat → ℚ

/-- The derived set `RPS_ENERGY_SOURCES` (rps_simple.py lines 68-70):
the union of `NON_FUEL_ENERGY_SOURCES` and the fuels flagged eligible;
represented as a list whose membership is the union's membership. -/
def RPS_ENERGY_SOURCES (m : Model) : List Nat :=
  m.NON_FUEL_ENERGY_SOURCES ++ m.FUELS.filter (fun f => m.f_rps_eligible f)

/-- The expression `RPSFuelEnergy[p]` (rps_simple.py lines 78-89): over all
fuel-based generators and their timepoints in period `p`, the timepoint
weight times the summed fuel-use rate of eligible fuels, divided by the
generator's full-load heat rate. -/
def RPSFuelEnergy (m : Model) (p : Nat) : ℚ :=
  (m.FUEL_BASED_GENS.map (fun g =>
    ((m.TPS_FOR_GEN_IN_PERIOD g p).map (fun t =>
      m.tp_weight t *
        (((m.FUELS_FOR_GEN g).filter (fun f => m.f_rps_eligible f)).map
          (fun f => m.GenFuelUseRate g t f)).sum
        / m.gen_full_load_heat_rate g)).sum)).sum

/-- The expression `RPSNonFuelEnergy[p]` (rps_simple.py lines 90-94): the
dispatch of every non-fuel-based generator, weighted by timepoint
duration, summed over the generator's timepoints in period `p`. -/
def RPSNonFuelEnergy (m : Model) (p : Nat) : ℚ :=
  (m.NON_FUEL_BASED_GENS.map (fun g =>
    ((m.TPS_FOR_GEN_IN_PERIOD g p).map (fun t =>
      m.DispatchGen g t * m.tp_weight t)).sum)).sum

/-- The helper `total_generation_in_period` (rps_simple.py lines 102-106). -/
def total_generation_in_period (m : Model) (p : Nat) : ℚ :=
  (m.GENERATION_PROJECTS.map (fun g =>
    ((m.TPS_FOR_GEN_IN_PERIOD g p).map (fun t =>
      m.DispatchGen g t * m.tp_weight t)).sum)).sum

/-- The helper `total_demand_in_period` (rps_simple.py lines 109-111). -/
def total_demand_in_period (m : Model) (p : Nat) : ℚ :=
  (m.LOAD_ZONES.map (fun z => m.zone_total_demand_in_period_mwh z p)).sum

/-- The constraint body of `RPS_Enforce_Target[p]` (rps_simple.py lines
96-99): eligible energy must reach the target fraction of total demand. -/
def RPS_Enforce_Target (m : Model) (p : Nat) : Prop :=
  RPSFuelEnergy m p + RPSNonFuelEnergy m p ≥
    m.rps_target p * total_demand_in_period m p

instance (m : Model) (p : Nat) : Decidable (RPS_Enforce_Target m p) := by
  unfold RPS_Enforce_Target; infer_instance

/-- A solution is feasible for this module when every constraint the
module adds to the model holds: `RPS_Enforce_Target[p]` is indexed by
`RPS_PERIODS` (rps_simple.py lines 96-97), so one constraint per RPS
period and none for other periods. -/
def feasible (m : Model) : Prop :=
  ∀ p ∈ m.RPS_PERIODS, RPS_Enforce_Target m p

instance (m : Model) : Decidable (feasible m) := by
  unfold feasible; infer_instance

/-! Input loading (`load_inputs`, rps_simple.py lines 114-140).

The loading utility `switch_data.load_aug` and the framework's domain and
set validation live outside `src/`, so their behaviour is modelled from
the spec; the validation rule `p in m.PERIODS` (line 73), the domain
`PercentFraction` (line 76), and the default `False` for `f_rps_eligible`
(line 67) are taken from the source. -/

/-- Cells of the optional `f_rps_eligible` column of `fuels.tab`, as an
association list from fuel to the cell value; a fuel with no assigned
value is simply absent from the list (in particular the whole list is
empty when the column is absent from the file). -/
abbrev FuelEligRows := List (Nat × Bool)

/-- Value of the parameter `f_rps_eligible[f]` after loading: the value
assigned by the input rows if any, otherwise the declared default `False`
(rps_simple.py lines 64-67). -/
def f_rps_eligible_loaded (rows : FuelEligRows) (f : Nat) : Bool :=
  match rows.lookup f with
  | some b => b
  | none => false

/-- The validation rule of the set `RPS_PERIODS` (rps_simple.py line 73):
a candidate member `p` is valid when `p in m.PERIODS`. -/
def RPS_PERIODS_validate (PERIODS : List Nat) (p : Nat) : Bool :=
  PERIODS.contains p

/-- The domain `PercentFraction` of `rps_target` (rps_simple.py line 76):
the closed interval from 0 to 1. -/
def PercentFraction (v : ℚ) : Bool :=
  decide (0 ≤ v) && decide (v ≤ 1)

/-- Modelled from the spec: the framework's set loading, which is missing
from `src/` (it lives in the modeling framework invoked by
`switch_data.load_aug`).  Loading members into `RPS_PERIODS` fails
fatally when any member fails the declared validation rule, and succeeds
otherwise. -/
def load_RPS_PERIODS (PERIODS members : List Nat) :
    Except String (List Nat) :=
  if members.all (fun p => RPS_PERIODS_validate PERIODS p) then
    Except.ok members
  else
    Except.error "RPS_PERIODS: member failed validate rule"

/-- Modelled from the spec: the framework's parameter loading, which is
missing from `src/`.  Loading `rps_target` values fails fatally when any
value lies outside the declared domain `PercentFraction`, and succeeds
otherwise. -/
def load_rps_target (rows : List (Nat × ℚ)) :
    Except String (List (Nat × ℚ)) :=
  if rows.all (fun pv => PercentFraction pv.2) then
    Except.ok rows
  else
    Except.error "rps_target: value outside domain PercentFraction"

/-- Contents of the inputs directory as far as `load_inputs` reads it:
the rows of the optional eligibility column of `fuels.tab`, and the rows
of `rps_targets.tab`, `none` when that file is absent. -/
structure InputsDir where
  fuels_elig_rows : FuelEligRows
  rps_targets_rows : Option (List (Nat × ℚ))

/-- Data held by the model after a successful `load_inputs`. -/
structure LoadedData where
  f_rps_eligible : Nat → Bool
  RPS_PERIODS : List Nat
  rps_target_rows : List (Nat × ℚ)

/-- Modelled from the spec where it leaves `src/`: `load_inputs`
(rps_simple.py lines 114-140).  The `f_rps_eligible` column of
`fuels.tab` is optional (`optional_params`, line 134): its absence is not
an error and leaves every fuel at the default.  `rps_targets.tab` is
mandatory: per the spec, a missing mandatory input file is a fatal
load-time failure propagated to the caller with no recovery.  When the
file is present, its first column populates `RPS_PERIODS` (checked by the
set's validate rule) and its second populates `rps_target` (checked
against `PercentFraction`). -/
def load_inputs (PERIODS : List Nat) (d : InputsDir) :
    Except String LoadedData := do
  let elig := f_rps_eligible_loaded d.fuels_elig_rows
  match d.rps_targets_rows with
  | none => Except.error "rps_targets.tab: missing mandatory input file"
  | some rows => do
      let members ← load_RPS_PERIODS PERIODS (rows.map Prod.fst)
      let targets ← load_rps_target rows
      Except.ok ⟨elig, members, targets⟩

/-! Post-solve reporting (`post_solve`, rps_simple.py lines 143-167). -/

/-- Division as the host language performs it: a division by zero is a
fatal arithmetic failure, embedded as `none`. -/
def pydiv (a b : ℚ) : Option ℚ :=
  if b = 0 then none else some (a / b)

/-- The row builder `get_row` of `post_solve` (rps_simple.py lines
150-160), producing for period `p` the values under the headings PERIOD,
RPSFuelEnergyGWh, RPSNonFuelEnergyGWh, TotalGenerationInPeriodGWh,
RPSGenFraction, TotalSalesInPeriodGWh, RPSSalesFraction; `none` when a
division fails. -/
def get_row (m : Model) (p : Nat) :
    Option (Nat × ℚ × ℚ × ℚ × ℚ × ℚ × ℚ) := do
  let c1 ← pydiv (RPSFuelEnergy m p) 1000
  let c2 ← pydiv (RPSNonFuelEnergy m p) 1000
  let c3 ← pydiv (total_generation_in_period m p) 1000
  let c4 ← pydiv (RPSFuelEnergy m p + RPSNonFuelEnergy m p)
    (total_generation_in_period m p)
  let c5 := total_demand_in_period m p
  let c6 ← pydiv (RPSFuelEnergy m p + RPSNonFuelEnergy m p)
    (total_demand_in_period m p)
  some (p, c1, c2, c3, c4, c5, c6)

/-! Model-update helpers and concrete scenario instances used in the
theorems and their witnesses below. -/

/-- Replace the fuel-use-rate values of fuel `f` by `r`, leaving every
other datum of the model unchanged. -/
def setFuelUseRate (m : Model) (f : Nat) (r : Nat → Nat → ℚ) : Model :=
  { m with GenFuelUseRate := fun g t f2 =>
      if f2 = f then r g t else m.GenFuelUseRate g t f2 }

/-- Flip `f_rps_eligible[f]` to `True`, leaving every other datum of the
model unchanged. -/
def setEligibleTrue (m : Model) (f : Nat) : Model :=
  { m with f_rps_eligible := fun x =>
      if x = f then true else m.f_rps_eligible x }

/-- Solved instance of the spec's reporting scenario: one RPS period 5,
one eligible fuel 0; fuel-based generator 1 burns 20000 units of fuel at
heat rate 1 and dispatches 50000, non-fuel generator 2 dispatches 100000,
all at the single timepoint 0 of weight 1; one load zone with demand
140000.  So RPSFuelEnergy[5] = 20000, RPSNonFuelEnergy[5] = 100000, total
generation 150000 and total demand 140000, in base energy units. -/
def mReport : Model where
  FUELS := [0]
  NON_FUEL_ENERGY_SOURCES := [100]
  f_rps_eligible := fun f => f == 0
  PERIODS := [5]
  RPS_PERIODS := [5]
  rps_target := fun _ => 1/2
  FUEL_BASED_GENS := [1]
  NON_FUEL_BASED_GENS := [2]
  GENERATION_PROJECTS := [1, 2]
  FUELS_FOR_GEN := fun _ => [0]
  TPS_FOR_GEN_IN_PERIOD := fun _ _ => [0]
  tp_weight := fun _ => 1
  GenFuelUseRate := fun _ _ _ => 20000
  gen_full_load_heat_rate := fun _ => 1
  DispatchGen := fun g _ => if g == 1 then 50000 else 100000
  LOAD_ZONES := [0]
  zone_total_demand_in_period_mwh := fun _ _ => 140000

/-- The spec's end-to-end scenario: periods 1 and 2, target 1/2 for
period 1 only; non-fuel generator 0 dispatches 100 in period 1; fuel
generator 1 burns the eligible fuel 10 at rate 20, fuel generator 2 burns
the ineligible fuel 11 at rate 80, both at heat rate 1; every generator
runs at the single timepoint 0 of weight 1 in period 1 and has no
timepoints in period 2; one load zone with demand 200 in period 1. -/
def mScenario : Model where
  FUELS := [10, 11]
  NON_FUEL_ENERGY_SOURCES := [100]
  f_rps_eligible := fun f => f == 10
  PERIODS := [1, 2]
  RPS_PERIODS := [1]
  rps_target := fun _ => 1/2
  FUEL_BASED_GENS := [1, 2]
  NON_FUEL_BASED_GENS := [0]
  GENERATION_PROJECTS := [0, 1, 2]
  FUELS_FOR_GEN := fun g => if g == 1 then [10] else [11]
  TPS_FOR_GEN_IN_PERIOD := fun _ p => if p == 1 then [0] else []
  tp_weight := fun _ => 1
  GenFuelUseRate := fun g _ _ => if g == 1 then 20 else 80
  gen_full_load_heat_rate := fun _ => 1
  DispatchGen := fun g _ => if g == 0 then 100 else if g == 1 then 20 else 80
  LOAD_ZONES := [0]
  zone_total_demand_in_period_mwh := fun _ p => if p == 1 then 200 else 0

/-- Small instance whose eligibility parameter comes from loading an
input with no `f_rps_eligible` column, so every fuel keeps the default. -/
def mDefaultElig : Model where
  FUELS := [3]
  NON_FUEL_ENERGY_SOURCES := [100]
  f_rps_eligible := f_rps_eligible_loaded []
  PERIODS := [0]
  RPS_PERIODS := [0]
  rps_target := fun _ => 1/2
  FUEL_BASED_GENS := [1]
  NON_FUEL_BASED_GENS := []
  GENERATION_PROJECTS := [1]
  FUELS_FOR_GEN := fun _ => [3]
  TPS_FOR_GEN_IN_PERIOD := fun _ _ => [0]
  tp_weight := fun _ => 1
  GenFuelUseRate := fun _ _ _ => 7
  gen_full_load_heat_rate := fun _ => 1
  DispatchGen := fun _ _ => 7
  LOAD_ZONES := [0]
  zone_total_demand_in_period_mwh := fun _ _ => 0

/-- Degenerate solved instance for the divide-by-zero hazard: period 0 is
an RPS period, but no generation project exists and the only load zone
has zero demand, so total generation and total demand are both zero. -/
def mZero : Model where
  FUELS := []
  NON_FUEL_ENERGY_SOURCES := []
  f_rps_eligible := fun _ => false
  PERIODS := [0]
  RPS_PERIODS := [0]
  rps_target := fun _ => 0
  FUEL_BASED_GENS := []
  NON_FUEL_BASED_GENS := []
  GENERATION_PROJECTS := []
  FUELS_FOR_GEN := fun _ => []
  TPS_FOR_GEN_IN_PERIOD := fun _ _ => []
  tp_weight := fun _ => 1
  GenFuelUseRate := fun _ _ _ => 0
  gen_full_load_heat_rate := fun _ => 1
  DispatchGen := fun _ _ => 0
  LOAD_ZONES := [0]
  zone_total_demand_in_period_mwh := fun _ _ => 0

/-- Inputs directory with no `f_rps_eligible` column in `fuels.tab` and
no `rps_targets.tab` file at all. -/
def dMissing : InputsDir := ⟨[], none⟩

/-- Inputs directory with no `f_rps_eligible` column in `fuels.tab` and a
well-formed `rps_targets.tab` giving period 1 the target 1/2. -/
def dGood : InputsDir := ⟨[], some [(1, 1/2)]⟩

/-! Helper lemmas shared by the theorems below. -/

/-- Sums of non-negative values over a filtered list grow when the filter
is relaxed. -/
theorem sum_filter_mono (l : List Nat) (pb qb : Nat → Bool) (r : Nat → ℚ)
    (hr : ∀ a ∈ l, 0 ≤ r a) (hpq : ∀ a, pb a = true → qb a = true) :
    ((l.filter pb).map r).sum ≤ ((l.filter qb).map r).sum := by
  apply List.Sublist.sum_le_sum ((List.monotone_filter_right l hpq).map r)
  intro a ha
  rcases List.mem_map.1 ha with ⟨x, hx, rfl⟩
  exact hr x (List.mem_of_mem_filter hx)

/-- Loading `RPS_PERIODS` succeeds when every member passes the validate
rule of rps_simple.py line 73. -/
theorem load_RPS_PERIODS_ok (PERIODS members : List Nat)
    (h : ∀ p ∈ members, p ∈ PERIODS) :
    load_RPS_PERIODS PERIODS members = Except.ok members := by
  unfold load_RPS_PERIODS RPS_PERIODS_validate
  rw [if_pos]
  apply List.all_eq_true.2
  intro p hp
  simpa using h p hp

/-- Loading `RPS_PERIODS` fails when some member fails the validate rule
of rps_simple.py line 73. -/
theorem load_RPS_PERIODS_err (PERIODS members : List Nat)
    (h : ∃ p ∈ members, p ∉ PERIODS) :
    ∃ e, load_RPS_PERIODS PERIODS members = Except.error e := by
  rcases h with ⟨p, hp, hnp⟩
  unfold load_RPS_PERIODS RPS_PERIODS_validate
  rw [if_neg]
  · exact ⟨_, rfl⟩
  · intro hall
    exact hnp (by simpa using List.all_eq_true.1 hall p hp)

/-- Loading `rps_target` succeeds when every value lies in the declared
domain `PercentFraction` of rps_simple.py line 76. -/
theorem load_rps_target_ok (rows : List (Nat × ℚ))
    (h : ∀ pv ∈ rows, 0 ≤ pv.2 ∧ pv.2 ≤ 1) :
    load_rps_target rows = Except.ok rows := by
  unfold load_rps_target PercentFraction
  rw [if_pos]
  apply List.all_eq_true.2
  intro pv hpv
  simpa using h pv hpv

/-- Loading `rps_target` fails when some value lies outside the declared
domain `PercentFraction` of rps_simple.py line 76. -/
theorem load_rps_target_err (rows : List (Nat × ℚ))
    (h : ∃ pv ∈ rows, pv.2 < 0 ∨ 1 < pv.2) :
    ∃ e, load_rps_target rows = Except.error e := by
  rcases h with ⟨pv, hpv, hbad⟩
  unfold load_rps_target PercentFraction
  rw [if_neg]
  · exact ⟨_, rfl⟩
  · intro hall
    have hin := List.all_eq_true.1 hall pv hpv
    simp only [Bool.and_eq_true, decide_eq_true_eq] at hin
    rcases hbad with hb | hb
    · exact absurd hin.1 (not_le.2 hb)
    · exact absurd hin.2 (not_le.2 hb)

/-- The end-to-end scenario instance satisfies every constraint the
module adds, i.e. it is a feasible solution. -/
theorem mScenario_feasible : feasible mScenario := by
  intro p hp
  simp only [mScenario, List.mem_singleton] at hp
  subst hp
  norm_num [RPS_Enforce_Target, RPSFuelEnergy, RPSNonFuelEnergy,
    total_demand_in_period, mScenario]

/-! The claims. -/

/-- Claim C1: for every period `p` in `RPS_PERIODS`, any feasible
solution of the model satisfies
`RPSFuelEnergy[p] + RPSNonFuelEnergy[p] ≥ rps_target[p]` times the total
demand in period `p`, total demand being the sum over all load zones of
`zone_total_demand_in_period_mwh[zone, p]`. -/
theorem enforce_target_of_feasible (m : Model) (p : Nat)
    (hp : p ∈ m.RPS_PERIODS) (hf : feasible m) :
    RPSFuelEnergy m p + RPSNonFuelEnergy m p ≥
      m.rps_target p *
        (m.LOAD_ZONES.map (fun z => m.zone_total_demand_in_period_mwh z p)).sum :=
  hf p hp

/-- Witness for C1 on the end-to-end scenario instance. -/
theorem enforce_target_of_feasible_witness :
    (1 ∈ mScenario.RPS_PERIODS) ∧ feasible mScenario ∧
      RPSFuelEnergy mScenario 1 + RPSNonFuelEnergy mScenario 1 ≥
        mScenario.rps_target 1 *
          (mScenario.LOAD_ZONES.map
            (fun z => mScenario.zone_total_demand_in_period_mwh z 1)).sum :=
  ⟨by decide, mScenario_feasible,
    enforce_target_of_feasible mScenario 1 (by decide) mScenario_feasible⟩

/-- Claim C2, behaviour of the code at the spec's reporting scenario:
with `RPSFuelEnergy[5] = 20000`, `RPSNonFuelEnergy[5] = 100000`, total
generation `150000` and total demand `140000` in base units, `get_row`
divides the first three energy entries by 1000 (giving 20, 100, 150) and
computes the fractions 4/5 and 6/7, but writes the total demand under the
heading `TotalSalesInPeriodGWh` in base units, `140000`, not the
GWh-converted `140` the claim requires: rps_simple.py line 157 omits the
division by 1000 that its own heading and the other energy columns
promise. -/
theorem get_row_report_row :
    get_row mReport 5 = some (5, 20, 100, 150, 4/5, 140000, 6/7) ∧
      (140000 : ℚ) ≠ 140 := by
  constructor
  · norm_num [get_row, pydiv, RPSFuelEnergy, RPSNonFuelEnergy,
      total_generation_in_period, total_demand_in_period, mReport]
  · norm_num

/-- Claim C3: after component declaration, `RPS_ENERGY_SOURCES` is
exactly the union of `NON_FUEL_ENERGY_SOURCES` and the fuels `f` in
`FUELS` with `f_rps_eligible[f]` true. -/
theorem mem_RPS_ENERGY_SOURCES_iff (m : Model) (x : Nat) :
    x ∈ RPS_ENERGY_SOURCES m ↔
      x ∈ m.NON_FUEL_ENERGY_SOURCES ∨
        (x ∈ m.FUELS ∧ m.f_rps_eligible x = true) := by
  simp [RPS_ENERGY_SOURCES, List.mem_filter]

/-- Claim C4: a fuel `f` assigned no eligibility value during input
loading (in particular when the `f_rps_eligible` column is absent, so the
row list is empty) gets the default `False`; consequently it is excluded
from `RPS_ENERGY_SOURCES` (being no non-fuel source) and contributes
nothing to `RPSFuelEnergy[p]`: replacing its fuel-use rates by arbitrary
values leaves `RPSFuelEnergy[p]` unchanged. -/
theorem unassigned_fuel_defaults_false (rows : FuelEligRows) (f : Nat)
    (hlk : rows.lookup f = none) (m : Model) (p : Nat) (r : Nat → Nat → ℚ)
    (hm : m.f_rps_eligible = f_rps_eligible_loaded rows)
    (hnf : f ∉ m.NON_FUEL_ENERGY_SOURCES) :
    m.f_rps_eligible f = false ∧ f ∉ RPS_ENERGY_SOURCES m ∧
      RPSFuelEnergy (setFuelUseRate m f r) p = RPSFuelEnergy m p := by
  have hef : m.f_rps_eligible f = false := by
    rw [hm]
    unfold f_rps_eligible_loaded
    rw [hlk]
  refine ⟨hef, ?_, ?_⟩
  · intro hmem
    rcases List.mem_append.1 hmem with h | h
    · exact hnf h
    · have h2 := (List.mem_filter.1 h).2
      rw [hef] at h2
      exact Bool.false_ne_true h2
  · unfold RPSFuelEnergy
    dsimp only [setFuelUseRate]
    apply congrArg List.sum
    apply List.map_congr_left
    intro g hg
    apply congrArg List.sum
    apply List.map_congr_left
    intro t ht
    congr 1
    congr 1
    apply congrArg List.sum
    apply List.map_congr_left
    intro f2 hf2
    have hne : f2 ≠ f := by
      intro he
      subst he
      have h3 := (List.mem_filter.1 hf2).2
      rw [hef] at h3
      exact Bool.false_ne_true h3
    simp [hne]

/-- Witness for C4: fuel 3 of `mDefaultElig` is unassigned (empty row
list), defaults to ineligible, is excluded from the eligible sources, and
its rates do not affect `RPSFuelEnergy`. -/
theorem unassigned_fuel_defaults_false_witness :
    (([] : FuelEligRows).lookup 3 = none) ∧
    (3 ∉ mDefaultElig.NON_FUEL_ENERGY_SOURCES) ∧
    (mDefaultElig.f_rps_eligible 3 = false ∧
      3 ∉ RPS_ENERGY_SOURCES mDefaultElig ∧
      RPSFuelEnergy (setFuelUseRate mDefaultElig 3 (fun _ _ => 999)) 0 =
        RPSFuelEnergy mDefaultElig 0) :=
  ⟨rfl, by decide,
    unassigned_fuel_defaults_false [] 3 rfl mDefaultElig 0
      (fun _ _ => 999) rfl (by decide)⟩

/-- Claim C5: in the end-to-end scenario (target 1/2 in period 1 only,
non-fuel generation 100, eligible-fuel generation 20, ineligible-fuel
generation 80), the module's period-1 constraint is exactly that
120 = 100 + 20 is at least 1/2 of total demand, and period 2 is not in
`RPS_PERIODS`, so feasibility imposes nothing beyond the period-1
constraint. -/
theorem scenario_constraint :
    RPSFuelEnergy mScenario 1 = 20 ∧
    RPSNonFuelEnergy mScenario 1 = 100 ∧
    (RPS_Enforce_Target mScenario 1 ↔
      (120 : ℚ) ≥ (1/2) * total_demand_in_period mScenario 1) ∧
    2 ∉ mScenario.RPS_PERIODS ∧
    (feasible mScenario ↔ RPS_Enforce_Target mScenario 1) := by
  refine ⟨?_, ?_, ?_, by decide, ?_⟩
  · norm_num [RPSFuelEnergy, mScenario]
  · norm_num [RPSNonFuelEnergy, mScenario]
  · norm_num [RPS_Enforce_Target, RPSFuelEnergy, RPSNonFuelEnergy, mScenario]
  · constructor
    · intro h
      exact h 1 (by decide)
    · intro h p hp
      simp only [mScenario, List.mem_singleton] at hp
      subst hp
      exact h

/-- Claim C6: loading a member into `RPS_PERIODS` that is not in
`PERIODS` fails the validate rule of rps_simple.py line 73 fatally;
loading succeeds whenever every member belongs to `PERIODS`. -/
theorem load_RPS_PERIODS_validates (PERIODS members : List Nat) :
    ((∃ p ∈ members, p ∉ PERIODS) →
      ∃ e, load_RPS_PERIODS PERIODS members = Except.error e) ∧
    ((∀ p ∈ members, p ∈ PERIODS) →
      load_RPS_PERIODS PERIODS members = Except.ok members) :=
  ⟨load_RPS_PERIODS_err PERIODS members, load_RPS_PERIODS_ok PERIODS members⟩

/-- Witness for C6: member 3 is rejected against `PERIODS = [1, 2]`, and
`[1, 2]` loads successfully. -/
theorem load_RPS_PERIODS_validates_witness :
    (∃ e, load_RPS_PERIODS [1, 2] [3] = Except.error e) ∧
    load_RPS_PERIODS [1, 2] [1, 2] = Except.ok [1, 2] :=
  ⟨(load_RPS_PERIODS_validates [1, 2] [3]).1 ⟨3, by decide, by decide⟩,
    (load_RPS_PERIODS_validates [1, 2] [1, 2]).2 (by decide)⟩

/-- Claim C7: loading an `rps_target` value outside the closed interval
from 0 to 1 fails the `PercentFraction` domain of rps_simple.py line 76
fatally; any values inside the interval are accepted. -/
theorem load_rps_target_domain_check (rows : List (Nat × ℚ)) :
    ((∃ pv ∈ rows, pv.2 < 0 ∨ 1 < pv.2) →
      ∃ e, load_rps_target rows = Except.error e) ∧
    ((∀ pv ∈ rows, 0 ≤ pv.2 ∧ pv.2 ≤ 1) →
      load_rps_target rows = Except.ok rows) :=
  ⟨load_rps_target_err rows, load_rps_target_ok rows⟩

/-- Witness for C7: the target value 2 is rejected and the value 1/2 is
accepted. -/
theorem load_rps_target_domain_check_witness :
    (∃ e, load_rps_target [(1, 2)] = Except.error e) ∧
    load_rps_target [(1, 1/2)] = Except.ok [(1, 1/2)] :=
  ⟨(load_rps_target_domain_check [(1, 2)]).1
      ⟨(1, 2), List.mem_singleton.2 rfl, Or.inr (by norm_num)⟩,
    (load_rps_target_domain_check [(1, 1/2)]).2
      (by
        intro pv hpv
        rw [List.mem_singleton] at hpv
        subst hpv
        constructor <;> norm_num)⟩

/-- Claim C8: `load_inputs` treats `rps_targets.tab` as mandatory — its
absence is a fatal load-time error propagated to the caller — while the
`f_rps_eligible` column of `fuels.tab` is optional: with the file present
and well-formed, loading succeeds even when the eligibility rows are
entirely absent. -/
theorem load_inputs_mandatory (PERIODS : List Nat) (d : InputsDir) :
    (d.rps_targets_rows = none →
      ∃ e, load_inputs PERIODS d = Except.error e) ∧
    (∀ rows, d.rps_targets_rows = some rows →
      (∀ pv ∈ rows, pv.1 ∈ PERIODS ∧ 0 ≤ pv.2 ∧ pv.2 ≤ 1) →
      load_inputs PERIODS d =
        Except.ok ⟨f_rps_eligible_loaded d.fuels_elig_rows,
          rows.map Prod.fst, rows⟩) := by
  constructor
  · intro hnone
    unfold load_inputs
    rw [hnone]
    exact ⟨_, rfl⟩
  · intro rows hsome hvalid
    unfold load_inputs
    rw [hsome]
    dsimp only
    have h1 : load_RPS_PERIODS PERIODS (rows.map Prod.fst) =
        Except.ok (rows.map Prod.fst) := by
      apply load_RPS_PERIODS_ok
      intro q hq
      rcases List.mem_map.1 hq with ⟨pv, hpv, rfl⟩
      exact (hvalid pv hpv).1
    have h2 : load_rps_target rows = Except.ok rows :=
      load_rps_target_ok rows (fun pv hpv => (hvalid pv hpv).2)
    rw [h1, h2]
    rfl

/-- Witness for C8: an inputs directory without `rps_targets.tab` fails
to load, and one with the file but without any eligibility rows loads
successfully. -/
theorem load_inputs_mandatory_witness :
    (dMissing.rps_targets_rows = none ∧
      ∃ e, load_inputs [1] dMissing = Except.error e) ∧
    load_inputs [1] dGood =
      Except.ok ⟨f_rps_eligible_loaded [], [1], [(1, 1/2)]⟩ :=
  ⟨⟨rfl, (load_inputs_mandatory [1] dMissing).1 rfl⟩,
    (load_inputs_mandatory [1] dGood).2 [(1, 1/2)] rfl
      (by
        intro pv hpv
        rw [List.mem_singleton] at hpv
        subst hpv
        refine ⟨by decide, by norm_num, by norm_num⟩)⟩

/-- Claim C9: the divisions computing RPSGenFraction and RPSSalesFraction
in `get_row` are unguarded, so a period with zero total generation or
zero total demand makes `get_row` fail with a divide-by-zero arithmetic
error instead of producing a row. -/
theorem get_row_div_by_zero (m : Model) (p : Nat)
    (h : total_generation_in_period m p = 0 ∨
      total_demand_in_period m p = 0) :
    get_row m p = none := by
  rcases h with h | h
  · simp [get_row, pydiv, h]
  · by_cases hg : total_generation_in_period m p = 0 <;>
      simp [get_row, pydiv, h, hg]

/-- Witness for C9 on the degenerate instance with no generation. -/
theorem get_row_div_by_zero_witness :
    total_generation_in_period mZero 0 = 0 ∧ get_row mZero 0 = none :=
  ⟨rfl, get_row_div_by_zero mZero 0 (Or.inl rfl)⟩

/-- Claim C10: `RPSFuelEnergy[p]` is monotone in the eligibility flags:
with non-negative fuel-use rates and timepoint weights and positive
heat rates, flipping `f_rps_eligible[f]` from false to true never
decreases `RPSFuelEnergy[p]` for `p` in `RPS_PERIODS`. -/
theorem RPSFuelEnergy_mono_in_eligibility (m : Model) (f p : Nat)
    (hp : p ∈ m.RPS_PERIODS) (hfe : m.f_rps_eligible f = false)
    (hw : ∀ t, 0 ≤ m.tp_weight t)
    (hr : ∀ g t f2, 0 ≤ m.GenFuelUseRate g t f2)
    (hh : ∀ g, 0 < m.gen_full_load_heat_rate g) :
    RPSFuelEnergy m p ≤ RPSFuelEnergy (setEligibleTrue m f) p := by
  clear hp hfe
  unfold RPSFuelEnergy
  dsimp only [setEligibleTrue]
  apply List.sum_le_sum
  intro g hg
  apply List.sum_le_sum
  intro t ht
  have hS := sum_filter_mono (m.FUELS_FOR_GEN g)
    (fun x => m.f_rps_eligible x)
    (fun x => if x = f then true else m.f_rps_eligible x)
    (fun f2 => m.GenFuelUseRate g t f2)
    (fun a _ => hr g t a)
    (fun a hpa => by by_cases h2 : a = f <;> simp [h2, hpa])
  exact (div_le_div_iff_of_pos_right (hh g)).mpr
    (mul_le_mul_of_nonneg_left hS (hw t))

/-- Witness for C10: making the ineligible fuel 11 of the end-to-end
scenario eligible does not decrease `RPSFuelEnergy`. -/
theorem RPSFuelEnergy_mono_in_eligibility_witness :
    (1 ∈ mScenario.RPS_PERIODS) ∧ mScenario.f_rps_eligible 11 = false ∧
      RPSFuelEnergy mScenario 1 ≤
        RPSFuelEnergy (setEligibleTrue mScenario 11) 1 :=
  ⟨by decide, rfl,
    RPSFuelEnergy_mono_in_eligibility mScenario 11 1 (by decide) rfl
      (fun _ => zero_le_one)
      (fun g t f2 => by
        dsimp only [mScenario]
        split <;> norm_num)
      (fun _ => zero_lt_one)⟩

end RpsSimple
